import Mathlib

/-!
Verification development for the Multi-Phone WiFi Control System
(`phone_controller.py`, `screen_mirror_controller.py`).

The Python source is shallowly embedded: pure computations become Lean
functions over `ℤ`/`ℚ` (Python's float arithmetic on screen ratios is
modelled by exact rational arithmetic, and Python's `int()` truncation
toward zero by `pyInt`), subprocess/regex outcomes become explicit oracle
arguments, and the mutable geometry caches become explicit state passing.
-/

namespace MultiPhone

/-- Python `int(q)`: truncation toward zero of a rational. -/
def pyInt (q : ℚ) : ℤ := if q < 0 then -⌊-q⌋ else ⌊q⌋

theorem pyInt_of_nonneg {q : ℚ} (h : 0 ≤ q) : pyInt q = ⌊q⌋ := by
  simp [pyInt, not_lt.mpr h]

/-- The dict returned by `get_screen_info` / `get_master_screen_size`:
`{'width': w, 'height': h}`, optionally carrying the `is_override` key. -/
structure ScreenInfo where
  width : ℤ
  height : ℤ
  isOverride : Option Bool
deriving DecidableEq, Repr

/-- The `{'width': 0, 'height': 0}` sentinel (no `is_override` key). -/
def zeroInfo : ScreenInfo := ⟨0, 0, none⟩

/-- Source `mirror_tap`, lines 205-210: proportional slave coordinate with
Python `int()` truncation, then clamped to `[0, w-1] × [0, h-1]`:
`slave_x = int(slave_w * (x / master_w)); slave_x = max(0, min(slave_x, slave_w - 1))`. -/
def slaveTapPoint (m g : ScreenInfo) (x y : ℤ) : ℤ × ℤ :=
  (max 0 (min (pyInt ((g.width : ℚ) * ((x : ℚ) / (m.width : ℚ)))) (g.width - 1)),
   max 0 (min (pyInt ((g.height : ℚ) * ((y : ℚ) / (m.height : ℚ)))) (g.height - 1)))

/-- Modelled from the claim's wording (no clamp): the slave receives the tap at
`(int(slave.width * x/master.width), int(slave.height * y/master.height))`. -/
def specSlaveTapFormula (m g : ScreenInfo) (x y : ℤ) : ℤ × ℤ :=
  (pyInt ((g.width : ℚ) * ((x : ℚ) / (m.width : ℚ))),
   pyInt ((g.height : ℚ) * ((y : ℚ) / (m.height : ℚ))))

/-- Source `mirror_swipe`, lines 318-321: proportional endpoints for one slave,
with Python `int()` truncation and *no* clamping. -/
def slaveSwipePoints (m g : ScreenInfo) (x1 y1 x2 y2 : ℤ) : (ℤ × ℤ) × (ℤ × ℤ) :=
  ((pyInt ((g.width : ℚ) * ((x1 : ℚ) / (m.width : ℚ))),
    pyInt ((g.height : ℚ) * ((y1 : ℚ) / (m.height : ℚ)))),
   (pyInt ((g.width : ℚ) * ((x2 : ℚ) / (m.width : ℚ))),
    pyInt ((g.height : ℚ) * ((y2 : ℚ) / (m.height : ℚ)))))

/-- Outcome of one `subprocess.run(['adb', '-s', dev, 'shell', cmd], timeout=..)`. -/
inductive ExecOutcome
  | ok (returncode : ℤ)
  | timeout
  | failure (msg : String)
deriving DecidableEq, Repr

/-- Success flag: `'success': result.returncode == 0` on a normal return; the
`except` branches produce `'success': False`. -/
def ExecOutcome.toSuccess : ExecOutcome → Bool
  | .ok rc => rc == 0
  | .timeout => false
  | .failure _ => false

/-- One `{'device': .., 'success': ..}` entry of a mirror dispatch result list. -/
structure SlaveResult where
  device : String
  success : Bool
deriving DecidableEq, Repr

/-- The body of `mirror_tap`'s per-slave loop (lines 194-253), for one slave,
given the geometry that the cache-or-resolve step produced for it:
map proportionally (and clamp) when both dimensions are positive, otherwise
fall back to the absolute master coordinates; any command failure or timeout
is caught and recorded as `success=False` for this slave alone. -/
def slaveTapResult (m : ScreenInfo) (geomOf : String → ScreenInfo)
    (exec : String → ℤ × ℤ → ExecOutcome) (x y : ℤ) (sl : String) : SlaveResult :=
  let g := geomOf sl
  if 0 < g.width ∧ 0 < g.height then
    { device := sl, success := (exec sl (slaveTapPoint m g x y)).toSuccess }
  else
    { device := sl, success := (exec sl (x, y)).toSuccess }

/-- Source `mirror_tap` (lines 157-267): the master always receives `input tap x y`
unmodified (both in the unresolved-master fallback and in the proportional
branch); each slave contributes exactly one result entry. -/
def mirrorTapDispatch (m : ScreenInfo) (slaves : List String)
    (geomOf : String → ScreenInfo) (exec : String → ℤ × ℤ → ExecOutcome)
    (x y : ℤ) : (ℤ × ℤ) × List SlaveResult :=
  if m.width = 0 ∨ m.height = 0 then
    ((x, y), slaves.map fun sl => { device := sl, success := (exec sl (x, y)).toSuccess })
  else
    ((x, y), slaves.map (slaveTapResult m geomOf exec x y))

/-- Mouse buttons distinguished by `on_click` (pynput's `mouse.Button`). -/
inductive PButton
  | left
  | right
  | other
deriving DecidableEq, Repr

/-- A mirroring action triggered by the `on_click` handler: `mirror_tap`,
`mirror_swipe` (with its fixed 300 ms duration), or `mirror_key("KEYCODE_BACK")`. -/
inductive Emission
  | tap (p : ℤ × ℤ)
  | swipe (s e : ℤ × ℤ) (duration : ℤ)
  | back
deriving DecidableEq, Repr

/-- The mutable closure state of `_monitor_with_pynput`:
`drag_start` and `drag_active`. -/
structure DragState where
  dragStart : Option (ℤ × ℤ)
  dragActive : Bool
deriving DecidableEq, Repr

/-- Initial state: `drag_start = None`, `drag_active = False`. -/
def idleState : DragState := ⟨none, false⟩

/-- Source `on_click` (screen_mirror_controller.py lines 786-840), one event:
`inWin` is `is_point_in_window(x, y, hwnd)` and `mapped` the result of
`convert_to_phone_coords` for the event position (`none` when it returned
`None, None`).  Returns the updated drag state and the action dispatched,
if any.  The listener-lifecycle short-circuits (`self.running`, missing
window handle) are outside this per-event model. -/
def onClick (st : DragState) (inWin : Bool) (b : PButton) (pressed : Bool)
    (mapped : Option (ℤ × ℤ)) : DragState × Option Emission :=
  if inWin then
    match b, pressed with
    | .left, true =>
      match mapped with
      | some p => (⟨some p, true⟩, none)
      | none => (st, none)
    | .left, false =>
      match st.dragActive, st.dragStart with
      | true, some s =>
        (match mapped with
         | some e =>
           if 10 < |e.1 - s.1| ∨ 10 < |e.2 - s.2| then
             (idleState, some (.swipe s e 300))
           else
             (idleState, some (.tap e))
         | none => (idleState, none))
      | _, _ => (st, none)
    | .right, true => (st, some .back)
    | _, _ => (st, none)
  else
    if st.dragActive then (idleState, none) else (st, none)

/-- Clamp in `convert_to_phone_coords` / `mirror_tap`:
`max(0, min(v, width - 1))`. -/
def clampW (screen : ScreenInfo) (v : ℤ) : ℤ := max 0 (min v (screen.width - 1))

/-- Clamp in `convert_to_phone_coords` / `mirror_tap`:
`max(0, min(v, height - 1))`. -/
def clampH (screen : ScreenInfo) (v : ℤ) : ℤ := max 0 (min v (screen.height - 1))

/-- Client-relative coordinates in `convert_to_phone_coords` (lines 620-627):
`rel = window - client_screen_origin`, clamped into `[0, client_extent]`
(upper bound inclusive, the source uses no `-1` here). -/
def relPoint (clientLeft clientTop clientW clientH wx wy : ℤ) : ℤ × ℤ :=
  (max 0 (min (wx - clientLeft) clientW), max 0 (min (wy - clientTop) clientH))

/-- Source `convert_to_phone_coords` (screen_mirror_controller.py lines
590-697) given the already-queried window geometry: the zero-screen guard,
client-relative clamping, the aspect-mismatch test
`abs(window_aspect - phone_aspect) > 0.01`, uniform scaling with letterbox
exclusion on mismatch, independent axis scaling otherwise, and the final
clamp into the phone bounds.  Float arithmetic is modelled by exact `ℚ`
and `int()` by `pyInt`; the `win32gui` exception fallback (lines 699-717)
is outside this model. -/
def convertToPhoneCoords (screen : ScreenInfo)
    (clientLeft clientTop clientW clientH wx wy : ℤ) : Option (ℤ × ℤ) :=
  if screen.width = 0 ∨ screen.height = 0 then none
  else
    let relX := (relPoint clientLeft clientTop clientW clientH wx wy).1
    let relY := (relPoint clientLeft clientTop clientW clientH wx wy).2
    if 0 < clientW ∧ 0 < clientH then
      let wAspect : ℚ := (clientW : ℚ) / (clientH : ℚ)
      let pAspect : ℚ := (screen.width : ℚ) / (screen.height : ℚ)
      let scaleX : ℚ := (screen.width : ℚ) / (clientW : ℚ)
      let scaleY : ℚ := (screen.height : ℚ) / (clientH : ℚ)
      if 1/100 < |wAspect - pAspect| then
        let scale := min scaleX scaleY
        if pAspect < wAspect then
          let visibleW := pyInt ((clientH : ℚ) * pAspect)
          let lbX := (clientW - visibleW).fdiv 2
          if relX < lbX ∨ lbX + visibleW < relX then none
          else
            some (clampW screen (pyInt (((relX - lbX) : ℚ) * scale)),
                  clampH screen (pyInt ((relY : ℚ) * scale)))
        else
          let visibleH := pyInt ((clientW : ℚ) / pAspect)
          let lbY := (clientH - visibleH).fdiv 2
          if relY < lbY ∨ lbY + visibleH < relY then none
          else
            some (clampW screen (pyInt ((relX : ℚ) * scale)),
                  clampH screen (pyInt (((relY - lbY) : ℚ) * scale)))
      else
        some (clampW screen (pyInt ((relX : ℚ) * scaleX)),
              clampH screen (pyInt ((relY : ℚ) * scaleY)))
    else none

/-- Modelled from the spec's words: the single uniform scale factor
`min(scaleX, scaleY)` used under aspect-ratio mismatch. -/
def uniformScale (screen : ScreenInfo) (clientW clientH : ℤ) : ℚ :=
  min ((screen.width : ℚ) / (clientW : ℚ)) ((screen.height : ℚ) / (clientH : ℚ))

/-- Modelled from the spec's words: the centered visible (non-letterboxed)
sub-rectangle of the client area — its offset from the client origin and
its extent along the letterboxed axis. -/
def letterboxGeom (screen : ScreenInfo) (clientW clientH : ℤ) : (ℤ × ℤ) × ℤ :=
  if (screen.width : ℚ) / (screen.height : ℚ) < (clientW : ℚ) / (clientH : ℚ) then
    let visibleW := pyInt ((clientH : ℚ) * ((screen.width : ℚ) / (screen.height : ℚ)))
    (((clientW - visibleW).fdiv 2, 0), visibleW)
  else
    let visibleH := pyInt ((clientW : ℚ) / ((screen.width : ℚ) / (screen.height : ℚ)))
    ((0, (clientH - visibleH).fdiv 2), visibleH)

/-- Modelled from the spec's words: the client-relative point falls in the
letterbox bars, outside the centered visible sub-rectangle. -/
def outsideVisible (screen : ScreenInfo) (clientW clientH : ℤ) (r : ℤ × ℤ) : Prop :=
  if (screen.width : ℚ) / (screen.height : ℚ) < (clientW : ℚ) / (clientH : ℚ) then
    r.1 < (letterboxGeom screen clientW clientH).1.1 ∨
      (letterboxGeom screen clientW clientH).1.1 + (letterboxGeom screen clientW clientH).2 < r.1
  else
    r.2 < (letterboxGeom screen clientW clientH).1.2 ∨
      (letterboxGeom screen clientW clientH).1.2 + (letterboxGeom screen clientW clientH).2 < r.2

/-- A regex match object, reduced to its list of captured groups
(1-based access via `group`). -/
structure ReMatch where
  groups : List ℤ
deriving DecidableEq, Repr

/-- Python `match.group(i)`: raises `IndexError` when the pattern captured
fewer than `i` groups. -/
def ReMatch.group (m : ReMatch) (i : ℕ) : Except String ℤ :=
  match m.groups.get? (i - 1) with
  | some v => .ok v
  | none => .error "IndexError: no such group"

/-- Outcomes of the three `re.search` calls on the `wm size` stdout:
`Override size: (\d+) x (\d+)`, `Physical size: (\d+) x (\d+)`, and the
bare `(\d+) x (\d+)` fallback.  Each of these patterns has two capture
groups, so a match is recorded directly as the two parsed integers.
Because `(\d+)` matches the digit string `0`, a parse of `(0, 0)` is a
reachable outcome (e.g. stdout `Override size: 0 x 0`). -/
structure WmSizeOut where
  overrideSize : Option (ℤ × ℤ)
  physicalSize : Option (ℤ × ℤ)
  anySize : Option (ℤ × ℤ)
deriving DecidableEq, Repr

/-- The `dumpsys window displays` fallback of `get_screen_info`
(phone_controller.py lines 152-164): when both regexes match, the code
reads `width_match.group(1)` but `height_match.group(2)` — and the
pattern `mDisplayHeight=(\d+)` has only one capture group. -/
def screenInfoDumpFallback (dumpOk : Bool)
    (dumpWidthMatch dumpHeightMatch : Option ReMatch) : Except String ScreenInfo :=
  if dumpOk then
    match dumpWidthMatch, dumpHeightMatch with
    | some mw, some mh => do
        let w ← mw.group 1
        let h ← mh.group 2
        .ok ⟨w, h, none⟩
    | _, _ => .ok zeroInfo
  else .ok zeroInfo

/-- Source `PhoneController.get_screen_info` (phone_controller.py lines
121-164), with the subprocess and regex outcomes supplied as oracles:
`wmOk` is the success of the `wm size` query, `dumpOk` that of
`dumpsys window displays`, and `dumpWidthMatch`/`dumpHeightMatch` the
`re.search` results for `mDisplayWidth=(\d+)` / `mDisplayHeight=(\d+)`
(one-group patterns).  The body has no `try`/`except` of its own, so a
raising `group` call escapes to the caller, modelled by `Except.error`. -/
def get_screen_info (wmOk : Bool) (wm : WmSizeOut) (dumpOk : Bool)
    (dumpWidthMatch dumpHeightMatch : Option ReMatch) : Except String ScreenInfo :=
  if wmOk then
    match wm.overrideSize with
    | some (w, h) => .ok ⟨w, h, some true⟩
    | none =>
      match wm.physicalSize with
      | some (w, h) => .ok ⟨w, h, some false⟩
      | none =>
        match wm.anySize with
        | some (w, h) => .ok ⟨w, h, some false⟩
        | none => screenInfoDumpFallback dumpOk dumpWidthMatch dumpHeightMatch
  else screenInfoDumpFallback dumpOk dumpWidthMatch dumpHeightMatch

/-- The resolution part of `get_master_screen_size`
(screen_mirror_controller.py lines 375-430): the whole chain sits in one
`try`/`except`, so a failing `wm size` (`check=True`), or the dumpsys
branch's `group(2)` IndexError, degrade to the zero sentinel with the
cache field left unchanged; a successful `wm size` parse — zero or not —
is written to `self.master_screen_size` and returned. -/
def resolveMasterScreenSize (cached : Option ScreenInfo) (wmOk : Bool) (wm : WmSizeOut)
    (dumpOk : Bool) (dumpWidthMatch dumpHeightMatch : Option ReMatch) :
    Option ScreenInfo × ScreenInfo :=
  if wmOk then
    match wm.overrideSize with
    | some (w, h) => (some ⟨w, h, some true⟩, ⟨w, h, some true⟩)
    | none =>
      match wm.physicalSize with
      | some (w, h) => (some ⟨w, h, some false⟩, ⟨w, h, some false⟩)
      | none =>
        match wm.anySize with
        | some (w, h) => (some ⟨w, h, some false⟩, ⟨w, h, some false⟩)
        | none =>
          if dumpOk then
            match dumpWidthMatch, dumpHeightMatch with
            | some _, some _ => (cached, zeroInfo)
            | _, _ => (cached, zeroInfo)
          else (cached, zeroInfo)
  else (cached, zeroInfo)

/-- Source `get_master_screen_size` (lines 370-430) with the
`self.master_screen_size` cache passed explicitly: a cached value is
returned immediately only when its width is positive
(`if self.master_screen_size and self.master_screen_size['width'] > 0`);
otherwise the resolution chain runs. -/
def getMasterScreenSize (cached : Option ScreenInfo) (wmOk : Bool) (wm : WmSizeOut)
    (dumpOk : Bool) (dumpWidthMatch dumpHeightMatch : Option ReMatch) :
    Option ScreenInfo × ScreenInfo :=
  match cached with
  | some g =>
    if 0 < g.width then (some g, g)
    else resolveMasterScreenSize cached wmOk wm dumpOk dumpWidthMatch dumpHeightMatch
  | none => resolveMasterScreenSize cached wmOk wm dumpOk dumpWidthMatch dumpHeightMatch

/-- Slave geometry lookup in `mirror_tap` (lines 196-201): use the cached
entry when present; otherwise take the freshly resolved geometry
(`get_screen_info` always returns a dict) and cache it only when its
width is positive. -/
def slaveGeomStep (cache : String → Option ScreenInfo) (resolved : ScreenInfo)
    (sl : String) : (String → Option ScreenInfo) × ScreenInfo :=
  match cache sl with
  | some g => (cache, g)
  | none =>
    if 0 < resolved.width then
      (fun d => if d = sl then some resolved else cache d, resolved)
    else (cache, resolved)

/-- Constructor cache fill `_cache_screen_sizes` (lines 40-47): a slave's
entry is inserted only when the resolved width is positive. -/
def cacheScreenSizesStep (cache : String → Option ScreenInfo) (resolved : ScreenInfo)
    (sl : String) : String → Option ScreenInfo :=
  if 0 < resolved.width then fun d => if d = sl then some resolved else cache d
  else cache

/-- Python `str.replace` for a single-character pattern: every occurrence
of `c` is replaced by the string `r`. -/
def pyReplaceChar (c : Char) (r : List Char) : List Char → List Char
  | [] => []
  | a :: rest => (if a = c then r else [a]) ++ pyReplaceChar c r rest

/-- Escaping in `mirror_text` and `input_text` (identical in both):
`text.replace(' ', '%s').replace('&', '\\&')`. -/
def escapeText (s : List Char) : List Char :=
  pyReplaceChar '&' ['\\', '&'] (pyReplaceChar ' ' ['%', 's'] s)

/-- Modelled from the claim's wording: a single pass where every space
becomes `%s`, every ampersand becomes `\&`, and all else is unchanged. -/
def specEscape : List Char → List Char
  | [] => []
  | c :: rest =>
    (if c = ' ' then ['%', 's'] else if c = '&' then ['\\', '&'] else [c]) ++ specEscape rest

/-- Source `mirror_text` (lines 361-368): with no slaves nothing is sent;
otherwise one `input text "<escaped>"` command per *slave* (via
`execute_on_slaves`) — the master device is not among the targets.  Each
entry is (target device, escaped payload). -/
def mirrorText (slaves : List String) (text : List Char) : List (String × List Char) :=
  if slaves = [] then []
  else slaves.map fun sl => (sl, escapeText text)

/-- One result dict of `PhoneController.execute_command` (lines 33-59);
the stdout field is abstracted away. -/
structure CmdResult where
  device : String
  success : Bool
  error : Option String
deriving DecidableEq, Repr

/-- Source `execute_command`: a normal return records
`success = (returncode == 0)`; `TimeoutExpired` and any other exception
are caught and recorded as a failed result, never re-raised. -/
def execute_command (exec : String → String → ExecOutcome) (dev cmd : String) : CmdResult :=
  match exec dev cmd with
  | .ok rc => ⟨dev, rc == 0, none⟩
  | .timeout => ⟨dev, false, some "Command timeout"⟩
  | .failure m => ⟨dev, false, some m⟩

/-- Source `execute_all` (lines 61-81): with no scanned devices return `[]`
immediately, issuing nothing; otherwise one `execute_command` per device.
In parallel mode the pool submits exactly one task per device and collects
one result per future; the nondeterministic completion order is abstracted
as submission order (the claims checked below are order-insensitive). -/
def execute_all (devices : List String) (cmd : String) (parallel : Bool)
    (exec : String → String → ExecOutcome) : List CmdResult :=
  if devices = [] then []
  else if parallel then devices.map (fun d => execute_command exec d cmd)
  else devices.map (fun d => execute_command exec d cmd)

theorem clamp_eq_self {v w : ℤ} (h0 : 0 ≤ v) (hw : v < w) :
    max 0 (min v (w - 1)) = v := by
  rw [min_eq_left (by omega), max_eq_right h0]

theorem prop_floor_bounds {sw mw x : ℤ} (hsw : 0 < sw) (hmw : 0 < mw)
    (hx0 : 0 ≤ x) (hx : x < mw) :
    0 ≤ pyInt ((sw : ℚ) * ((x : ℚ) / (mw : ℚ))) ∧
      pyInt ((sw : ℚ) * ((x : ℚ) / (mw : ℚ))) < sw := by
  have hmw' : (0 : ℚ) < (mw : ℚ) := by exact_mod_cast hmw
  have hsw' : (0 : ℚ) < (sw : ℚ) := by exact_mod_cast hsw
  have hx0' : (0 : ℚ) ≤ (x : ℚ) := by exact_mod_cast hx0
  have hq0 : (0 : ℚ) ≤ (sw : ℚ) * ((x : ℚ) / (mw : ℚ)) :=
    mul_nonneg hsw'.le (div_nonneg hx0' hmw'.le)
  rw [pyInt_of_nonneg hq0]
  refine ⟨Int.floor_nonneg.mpr hq0, ?_⟩
  rw [Int.floor_lt]
  have hr : (x : ℚ) / (mw : ℚ) < 1 := (div_lt_one hmw').mpr (by exact_mod_cast hx)
  calc (sw : ℚ) * ((x : ℚ) / (mw : ℚ)) < (sw : ℚ) * 1 := mul_lt_mul_of_pos_left hr hsw'
    _ = ((sw : ℤ) : ℚ) := by rw [mul_one]

/-- C1 counterexample: the claim's unclamped formula
`(int(slave.width * x/master.width), int(slave.height * y/master.height))`
disagrees with the code at the boundary input `(1080, 1200)` on a
1080×2400 master with a 720×1600 slave — the code clamps the mapped x
from 720 down to 719, so the slave does not receive the claimed point. -/
theorem C1_clamp_counterexample :
    slaveTapPoint ⟨1080, 2400, none⟩ ⟨720, 1600, none⟩ 1080 1200 = (719, 800) ∧
    specSlaveTapFormula ⟨1080, 2400, none⟩ ⟨720, 1600, none⟩ 1080 1200 = (720, 800) ∧
    slaveTapPoint ⟨1080, 2400, none⟩ ⟨720, 1600, none⟩ 1080 1200 ≠
      specSlaveTapFormula ⟨1080, 2400, none⟩ ⟨720, 1600, none⟩ 1080 1200 := by
  have h1 : pyInt (720 : ℚ) = 720 := by norm_num [pyInt]
  have h2 : pyInt (800 : ℚ) = 800 := by norm_num [pyInt]
  refine ⟨?_, ?_, ?_⟩ <;> simp [slaveTapPoint, specSlaveTapFormula] <;>
    norm_num [h1, h2, min_def, max_def]

/-- C1 (amended): for a tap dispatch with resolved master geometry and a
tap point inside the master bounds, the master receives the input point
unmodified, and a slave with resolved geometry receives exactly
`(int(slave.width * x/master.width), int(slave.height * y/master.height))`
(the clamp is the identity there).  Out-of-bounds inputs are additionally
clamped, per the counterexample. -/
theorem C1_tap_proportional (m g : ScreenInfo) (x y : ℤ)
    (hmw : 0 < m.width) (hmh : 0 < m.height)
    (hgw : 0 < g.width) (hgh : 0 < g.height)
    (hx0 : 0 ≤ x) (hx : x < m.width) (hy0 : 0 ≤ y) (hy : y < m.height) :
    (∀ slaves geomOf exec, (mirrorTapDispatch m slaves geomOf exec x y).1 = (x, y)) ∧
    slaveTapPoint m g x y = specSlaveTapFormula m g x y ∧
    (∀ sl geomOf exec, geomOf sl = g →
      mirrorTapDispatch m [sl] geomOf exec x y =
        ((x, y), [⟨sl, (exec sl (specSlaveTapFormula m g x y)).toSuccess⟩])) := by
  have hX := prop_floor_bounds hgw hmw hx0 hx
  have hY := prop_floor_bounds hgh hmh hy0 hy
  have hkey : slaveTapPoint m g x y = specSlaveTapFormula m g x y := by
    unfold slaveTapPoint specSlaveTapFormula
    rw [clamp_eq_self hX.1 hX.2, clamp_eq_self hY.1 hY.2]
  have hm0 : ¬(m.width = 0 ∨ m.height = 0) := by omega
  refine ⟨?_, hkey, ?_⟩
  · intro slaves geomOf exec
    unfold mirrorTapDispatch
    split <;> rfl
  · intro sl geomOf exec hgsl
    unfold mirrorTapDispatch
    rw [if_neg hm0]
    simp [slaveTapResult, hgsl, hgw, hgh, hkey]

/-- C1 witness: master 1080×2400, slave 720×1600, tap at (540, 1200) —
the master point passes through unmodified and the slave receives
(360, 800). -/
theorem C1_witness :
    ((0 : ℤ) < 1080 ∧ (0 : ℤ) ≤ 540 ∧ (540 : ℤ) < 1080 ∧
      (0 : ℤ) ≤ 1200 ∧ (1200 : ℤ) < 2400) ∧
    specSlaveTapFormula ⟨1080, 2400, none⟩ ⟨720, 1600, none⟩ 540 1200 = (360, 800) ∧
    mirrorTapDispatch ⟨1080, 2400, none⟩ ["SLAVE"] (fun _ => ⟨720, 1600, none⟩)
        (fun _ _ => .ok 0) 540 1200 = ((540, 1200), [⟨"SLAVE", true⟩]) := by
  have hspec : specSlaveTapFormula ⟨1080, 2400, none⟩ ⟨720, 1600, none⟩ 540 1200 =
      (360, 800) := by
    norm_num [specSlaveTapFormula, pyInt]
  have h := (C1_tap_proportional ⟨1080, 2400, none⟩ ⟨720, 1600, none⟩ 540 1200
      (by norm_num) (by norm_num) (by norm_num) (by norm_num)
      (by norm_num) (by norm_num) (by norm_num) (by norm_num)).2.2
      "SLAVE" (fun _ => ⟨720, 1600, none⟩) (fun _ _ => .ok 0) rfl
  exact ⟨by norm_num, hspec, by rw [h]; rfl⟩

/-- C3: the press/release classifier of `on_click` — a mapped press arms
the drag state without emitting; the matching mapped release emits
`mirror_swipe(start, end)` when either axis delta exceeds 10 and
`mirror_tap(end)` otherwise, returning to idle; a release with no prior
press emits nothing; an event outside the window emits nothing and at
most cancels an armed drag. -/
theorem C3_classifier_behaviour :
    (∀ (st : DragState) (s e : ℤ × ℤ),
      onClick st true .left true (some s) = (⟨some s, true⟩, none) ∧
      ((10 < |e.1 - s.1| ∨ 10 < |e.2 - s.2|) →
        onClick ⟨some s, true⟩ true .left false (some e) =
          (idleState, some (.swipe s e 300))) ∧
      (¬(10 < |e.1 - s.1| ∨ 10 < |e.2 - s.2|) →
        onClick ⟨some s, true⟩ true .left false (some e) = (idleState, some (.tap e)))) ∧
    (∀ mapped, onClick idleState true .left false mapped = (idleState, none)) ∧
    (∀ st b pressed mapped,
      onClick st false b pressed mapped = ((if st.dragActive then idleState else st), none)) := by
  refine ⟨fun st s e => ⟨rfl, fun h => ?_, fun h => ?_⟩, fun mapped => rfl,
    fun st b pressed mapped => ?_⟩
  · simp [onClick, h]
  · simp [onClick, h]
  · cases hst : st.dragActive <;> simp [onClick, hst]

/-- C3 witness: press (100,100) / release (100,100) yields a tap; press
(100,100) / release (500,500) yields a drag; a release in the idle state
is dropped. -/
theorem C3_witness :
    onClick idleState true .left true (some (100, 100)) = (⟨some (100, 100), true⟩, none) ∧
    onClick ⟨some (100, 100), true⟩ true .left false (some (100, 100)) =
      (idleState, some (.tap (100, 100))) ∧
    onClick ⟨some (100, 100), true⟩ true .left false (some (500, 500)) =
      (idleState, some (.swipe (100, 100) (500, 500) 300)) ∧
    onClick idleState true .left false (some (7, 7)) = (idleState, none) :=
  ⟨(C3_classifier_behaviour.1 idleState (100, 100) (100, 100)).1,
   (C3_classifier_behaviour.1 idleState (100, 100) (100, 100)).2.2 (by decide),
   (C3_classifier_behaviour.1 idleState (100, 100) (500, 500)).2.1 (by decide),
   C3_classifier_behaviour.2.1 (some (7, 7))⟩

/-- C4 counterexample: `mirror_swipe` applies no clamp — with master
1080×2400 and slave 720×1600, the swipe endpoint (2000, 1200) maps to
x = 1333, outside the slave's `[0, 719]` range, refuting "every mapped
coordinate … for both endpoints of swipes … is clamped". -/
theorem C4_swipe_unclamped_counterexample :
    (slaveSwipePoints ⟨1080, 2400, none⟩ ⟨720, 1600, none⟩ 0 0 2000 1200).2 = (1333, 800) ∧
    ¬((slaveSwipePoints ⟨1080, 2400, none⟩ ⟨720, 1600, none⟩ 0 0 2000 1200).2.1 ≤ 720 - 1) := by
  norm_num [slaveSwipePoints, pyInt]

/-- C4 (amended): tap coordinates are clamped into
`[0, width-1] × [0, height-1]` of the target geometry for every input
point, including points outside the source rectangle; swipe endpoints are
mapped without clamping (see the counterexample). -/
theorem C4_tap_clamped (m g : ScreenInfo) (x y : ℤ)
    (hgw : 0 < g.width) (hgh : 0 < g.height) :
    0 ≤ (slaveTapPoint m g x y).1 ∧ (slaveTapPoint m g x y).1 ≤ g.width - 1 ∧
    0 ≤ (slaveTapPoint m g x y).2 ∧ (slaveTapPoint m g x y).2 ≤ g.height - 1 := by
  unfold slaveTapPoint
  exact ⟨le_max_left _ _, max_le (by omega) (min_le_right _ _),
         le_max_left _ _, max_le (by omega) (min_le_right _ _)⟩

/-- C4 witness: the out-of-source input (5000, -50) on a 720×1600 slave
still lands inside the slave bounds. -/
theorem C4_witness :
    ((0 : ℤ) < 720 ∧ (0 : ℤ) < 1600) ∧
    (0 ≤ (slaveTapPoint ⟨1080, 2400, none⟩ ⟨720, 1600, none⟩ 5000 (-50)).1 ∧
      (slaveTapPoint ⟨1080, 2400, none⟩ ⟨720, 1600, none⟩ 5000 (-50)).1 ≤ 720 - 1 ∧
      0 ≤ (slaveTapPoint ⟨1080, 2400, none⟩ ⟨720, 1600, none⟩ 5000 (-50)).2 ∧
      (slaveTapPoint ⟨1080, 2400, none⟩ ⟨720, 1600, none⟩ 5000 (-50)).2 ≤ 1600 - 1) :=
  ⟨by norm_num,
   C4_tap_clamped ⟨1080, 2400, none⟩ ⟨720, 1600, none⟩ 5000 (-50) (by norm_num) (by norm_num)⟩

theorem clampW_mem (screen : ScreenInfo) (v : ℤ) (hw : 0 < screen.width) :
    0 ≤ clampW screen v ∧ clampW screen v < screen.width := by
  unfold clampW
  exact ⟨le_max_left _ _, max_lt hw (lt_of_le_of_lt (min_le_right _ _) (by omega))⟩

theorem clampH_mem (screen : ScreenInfo) (v : ℤ) (hh : 0 < screen.height) :
    0 ≤ clampH screen v ∧ clampH screen v < screen.height := by
  unfold clampH
  exact ⟨le_max_left _ _, max_lt hh (lt_of_le_of_lt (min_le_right _ _) (by omega))⟩

/-- C2: under aspect-ratio mismatch (absolute difference above 0.01) the
window-to-device conversion uses the single uniform scale factor
`min(scaleX, scaleY)`, re-expresses the point relative to the centered
visible sub-rectangle, returns `none` for every point falling in the
letterbox bars outside that sub-rectangle (so the caller forwards no
command), and maps every point inside it within the destination
bounds. -/
theorem C2_letterbox_mapping (screen : ScreenInfo) (cl ct cw ch wx wy : ℤ)
    (hcw : 0 < cw) (hch : 0 < ch)
    (hpw : 0 < screen.width) (hph : 0 < screen.height)
    (hmm : 1 / 100 < |(cw : ℚ) / (ch : ℚ) - (screen.width : ℚ) / (screen.height : ℚ)|) :
    (outsideVisible screen cw ch (relPoint cl ct cw ch wx wy) →
      convertToPhoneCoords screen cl ct cw ch wx wy = none) ∧
    (¬outsideVisible screen cw ch (relPoint cl ct cw ch wx wy) →
      convertToPhoneCoords screen cl ct cw ch wx wy =
        some (clampW screen (pyInt
            ((((relPoint cl ct cw ch wx wy).1 : ℚ) -
              ((letterboxGeom screen cw ch).1.1 : ℚ)) * uniformScale screen cw ch)),
          clampH screen (pyInt
            ((((relPoint cl ct cw ch wx wy).2 : ℚ) -
              ((letterboxGeom screen cw ch).1.2 : ℚ)) * uniformScale screen cw ch)))) ∧
    (∀ p, convertToPhoneCoords screen cl ct cw ch wx wy = some p →
      0 ≤ p.1 ∧ p.1 < screen.width ∧ 0 ≤ p.2 ∧ p.2 < screen.height) := by
  have hw0 : ¬(screen.width = 0 ∨ screen.height = 0) := by omega
  have hbounds : ∀ p, convertToPhoneCoords screen cl ct cw ch wx wy = some p →
      0 ≤ p.1 ∧ p.1 < screen.width ∧ 0 ≤ p.2 ∧ p.2 < screen.height := by
    intro p hp
    simp only [convertToPhoneCoords] at hp
    rw [if_neg hw0, if_pos ⟨hcw, hch⟩] at hp
    repeat' split at hp
    all_goals first
      | (cases hp
         exact ⟨(clampW_mem screen _ hpw).1, (clampW_mem screen _ hpw).2,
                (clampH_mem screen _ hph).1, (clampH_mem screen _ hph).2⟩)
      | cases hp
  refine ⟨?_, ?_, hbounds⟩
  · intro hout
    by_cases hA : (screen.width : ℚ) / (screen.height : ℚ) < (cw : ℚ) / (ch : ℚ)
    · have hout' : (relPoint cl ct cw ch wx wy).1 <
          (cw - pyInt ((ch : ℚ) * ((screen.width : ℚ) / (screen.height : ℚ)))).fdiv 2 ∨
          (cw - pyInt ((ch : ℚ) * ((screen.width : ℚ) / (screen.height : ℚ)))).fdiv 2 +
            pyInt ((ch : ℚ) * ((screen.width : ℚ) / (screen.height : ℚ))) <
            (relPoint cl ct cw ch wx wy).1 := by
        simpa only [outsideVisible, letterboxGeom, if_pos hA] using hout
      simp only [convertToPhoneCoords]
      rw [if_neg hw0, if_pos ⟨hcw, hch⟩, if_pos hmm, if_pos hA, if_pos hout']
    · have hout' : (relPoint cl ct cw ch wx wy).2 <
          (ch - pyInt ((cw : ℚ) / ((screen.width : ℚ) / (screen.height : ℚ)))).fdiv 2 ∨
          (ch - pyInt ((cw : ℚ) / ((screen.width : ℚ) / (screen.height : ℚ)))).fdiv 2 +
            pyInt ((cw : ℚ) / ((screen.width : ℚ) / (screen.height : ℚ))) <
            (relPoint cl ct cw ch wx wy).2 := by
        simpa only [outsideVisible, letterboxGeom, if_neg hA] using hout
      simp only [convertToPhoneCoords]
      rw [if_neg hw0, if_pos ⟨hcw, hch⟩, if_pos hmm, if_neg hA, if_pos hout']
  · intro hout
    by_cases hA : (screen.width : ℚ) / (screen.height : ℚ) < (cw : ℚ) / (ch : ℚ)
    · have hout' : ¬((relPoint cl ct cw ch wx wy).1 <
          (cw - pyInt ((ch : ℚ) * ((screen.width : ℚ) / (screen.height : ℚ)))).fdiv 2 ∨
          (cw - pyInt ((ch : ℚ) * ((screen.width : ℚ) / (screen.height : ℚ)))).fdiv 2 +
            pyInt ((ch : ℚ) * ((screen.width : ℚ) / (screen.height : ℚ))) <
            (relPoint cl ct cw ch wx wy).1) := by
        intro hcontra
        apply hout
        simpa only [outsideVisible, letterboxGeom, if_pos hA] using hcontra
      simp only [convertToPhoneCoords]
      rw [if_neg hw0, if_pos ⟨hcw, hch⟩, if_pos hmm, if_pos hA, if_neg hout']
      simp only [letterboxGeom, if_pos hA, uniformScale, Int.cast_zero, sub_zero]
    · have hout' : ¬((relPoint cl ct cw ch wx wy).2 <
          (ch - pyInt ((cw : ℚ) / ((screen.width : ℚ) / (screen.height : ℚ)))).fdiv 2 ∨
          (ch - pyInt ((cw : ℚ) / ((screen.width : ℚ) / (screen.height : ℚ)))).fdiv 2 +
            pyInt ((cw : ℚ) / ((screen.width : ℚ) / (screen.height : ℚ))) <
            (relPoint cl ct cw ch wx wy).2) := by
        intro hcontra
        apply hout
        simpa only [outsideVisible, letterboxGeom, if_neg hA] using hcontra
      simp only [convertToPhoneCoords]
      rw [if_neg hw0, if_pos ⟨hcw, hch⟩, if_pos hmm, if_neg hA, if_neg hout']
      simp only [letterboxGeom, if_neg hA, uniformScale, Int.cast_zero, sub_zero]

/-- C2 witness: master phone 1080×2400 shown in a 500×1000 client area
(aspects 0.45 vs 0.5, mismatch 0.05 > 0.01): the visible sub-rectangle is
450 wide starting at x = 25, so the click at client x = 10 falls in the
left letterbox bar and the conversion returns `none`. -/
theorem C2_witness :
    ((0 : ℤ) < 500 ∧ (0 : ℤ) < 1000 ∧ (0 : ℤ) < 1080 ∧ (0 : ℤ) < 2400 ∧
      (1 : ℚ) / 100 < |(500 : ℚ) / (1000 : ℚ) - (1080 : ℚ) / (2400 : ℚ)|) ∧
    outsideVisible ⟨1080, 2400, none⟩ 500 1000 (relPoint 0 0 500 1000 10 500) ∧
    convertToPhoneCoords ⟨1080, 2400, none⟩ 0 0 500 1000 10 500 = none := by
  have hvis : outsideVisible ⟨1080, 2400, none⟩ 500 1000 (relPoint 0 0 500 1000 10 500) := by
    have h450 : pyInt ((1000 : ℚ) * ((1080 : ℚ) / (2400 : ℚ))) = 450 := by
      norm_num [pyInt]
    simp only [outsideVisible, letterboxGeom, relPoint]
    norm_num [h450]
    decide
  refine ⟨by norm_num [abs_of_pos], hvis, ?_⟩
  exact (C2_letterbox_mapping ⟨1080, 2400, none⟩ 0 0 500 1000 10 500
    (by norm_num) (by norm_num) (by norm_num) (by norm_num)
    (by norm_num [abs_of_pos])).1 hvis

/-- C5 counterexample: in the 1-master + 3-slave scenario with one slave
timing out, `mirror_tap`'s result list covers only the slaves — its size
is 3, not the claimed 4 (the master dispatch is separate and contributes
no entry). -/
theorem C5_result_size_counterexample :
    (mirrorTapDispatch ⟨1080, 2400, none⟩ ["s1", "s2", "s3"]
        (fun _ => ⟨720, 1600, none⟩)
        (fun sl _ => if sl = "s2" then .timeout else .ok 0) 540 1200).2.length = 3 ∧
    ¬((mirrorTapDispatch ⟨1080, 2400, none⟩ ["s1", "s2", "s3"]
        (fun _ => ⟨720, 1600, none⟩)
        (fun sl _ => if sl = "s2" then .timeout else .ok 0) 540 1200).2.length = 4) := by
  decide

/-- C5 (amended): dispatch is best-effort and independent per target — the
master point goes out regardless of slave outcomes, the per-slave result
list has exactly one entry per slave, each entry is a function of that
slave's own geometry and command outcome alone, and in the
1-master + 3-slave scenario with exactly one slave timing out the
per-slave result set (size 3) has exactly one success=false entry. -/
theorem C5_independent_dispatch :
    (∀ (m : ScreenInfo) slaves geomOf exec (x y : ℤ),
      (mirrorTapDispatch m slaves geomOf exec x y).1 = (x, y) ∧
      (mirrorTapDispatch m slaves geomOf exec x y).2.length = slaves.length ∧
      (∀ i : ℕ, ¬(m.width = 0 ∨ m.height = 0) →
        (mirrorTapDispatch m slaves geomOf exec x y).2.get? i =
          (slaves.get? i).map (slaveTapResult m geomOf exec x y))) ∧
    ((mirrorTapDispatch ⟨1080, 2400, none⟩ ["s1", "s2", "s3"]
        (fun _ => ⟨720, 1600, none⟩)
        (fun sl _ => if sl = "s2" then .timeout else .ok 0) 540 1200).2.filter
      (fun r => !r.success)).length = 1 := by
  refine ⟨fun m slaves geomOf exec x y => ⟨?_, ?_, ?_⟩, by decide⟩
  · unfold mirrorTapDispatch
    split <;> rfl
  · unfold mirrorTapDispatch
    split <;> simp
  · intro i hm
    unfold mirrorTapDispatch
    rw [if_neg hm]
    simp [List.get?_map]

/-- C5 witness: the per-slave entry at index 1 of the scenario dispatch is
exactly the standalone result for slave "s2" alone. -/
theorem C5_witness :
    (¬((⟨1080, 2400, none⟩ : ScreenInfo).width = 0 ∨
        (⟨1080, 2400, none⟩ : ScreenInfo).height = 0)) ∧
    (mirrorTapDispatch ⟨1080, 2400, none⟩ ["s1", "s2", "s3"]
        (fun _ => ⟨720, 1600, none⟩)
        (fun sl _ => if sl = "s2" then .timeout else .ok 0) 540 1200).2.get? 1 =
      (["s1", "s2", "s3"].get? 1).map
        (slaveTapResult ⟨1080, 2400, none⟩ (fun _ => ⟨720, 1600, none⟩)
          (fun sl _ => if sl = "s2" then .timeout else .ok 0) 540 1200) :=
  ⟨by decide,
   (C5_independent_dispatch.1 ⟨1080, 2400, none⟩ ["s1", "s2", "s3"]
      (fun _ => ⟨720, 1600, none⟩)
      (fun sl _ => if sl = "s2" then .timeout else .ok 0) 540 1200).2.2 1 (by decide)⟩

/-- C6 counterexample: a zero parse is not discarded — with the override
pattern matching `0 x 0` and a valid physical size available,
`get_screen_info` returns the zero-width override result instead of
falling through to the 1080×2400 physical size. -/
theorem C6_zero_parse_counterexample :
    get_screen_info true ⟨some (0, 0), some (1080, 2400), none⟩ false none none =
      .ok ⟨0, 0, some true⟩ ∧
    ¬(get_screen_info true ⟨some (0, 0), some (1080, 2400), none⟩ false none none =
      .ok ⟨1080, 2400, some false⟩) := by
  refine ⟨rfl, fun h => ?_⟩
  exact absurd (congrArg ScreenInfo.width (Except.ok.inj h)) (by decide)

/-- C6 (amended): the strategy priority chain of `get_screen_info` —
override size beats physical size beats the bare `WxH` fallback, the
first regex match winning (even when it parses to zero, per the
counterexample), with all later oracles irrelevant. -/
theorem C6_strategy_order (wm : WmSizeOut) (dumpOk : Bool) (dW dH : Option ReMatch) :
    (∀ w h, wm.overrideSize = some (w, h) →
      get_screen_info true wm dumpOk dW dH = .ok ⟨w, h, some true⟩) ∧
    (∀ w h, wm.overrideSize = none → wm.physicalSize = some (w, h) →
      get_screen_info true wm dumpOk dW dH = .ok ⟨w, h, some false⟩) ∧
    (∀ w h, wm.overrideSize = none → wm.physicalSize = none → wm.anySize = some (w, h) →
      get_screen_info true wm dumpOk dW dH = .ok ⟨w, h, some false⟩) := by
  refine ⟨fun w h h1 => ?_, fun w h h1 h2 => ?_, fun w h h1 h2 h3 => ?_⟩
  · simp [get_screen_info, h1]
  · simp [get_screen_info, h1, h2]
  · simp [get_screen_info, h1, h2, h3]

/-- C6 witness: with all three wm-size patterns matching, the override
parse wins. -/
theorem C6_witness :
    (⟨some (1080, 2400), some (99, 99), some (7, 7)⟩ : WmSizeOut).overrideSize =
      some ((1080 : ℤ), (2400 : ℤ)) ∧
    get_screen_info true ⟨some (1080, 2400), some (99, 99), some (7, 7)⟩ true none none =
      .ok ⟨1080, 2400, some true⟩ :=
  ⟨rfl, (C6_strategy_order ⟨some (1080, 2400), some (99, 99), some (7, 7)⟩
    true none none).1 1080 2400 rfl⟩

/-- C7: the code bug — when the `wm size` strategies produce nothing and
the dumpsys fallback matches both patterns, the code reads
`height_match.group(2)` from the one-group pattern `mDisplayHeight=(\d+)`,
so `get_screen_info` raises IndexError to its caller instead of returning
the zero-geometry sentinel; when no strategy matches at all, the sentinel
is indeed returned. -/
theorem C7_dump_group_indexerror :
    get_screen_info false ⟨none, none, none⟩ true (some ⟨[1080]⟩) (some ⟨[2400]⟩) =
      .error "IndexError: no such group" ∧
    get_screen_info true ⟨none, none, none⟩ true (some ⟨[1080]⟩) (some ⟨[2400]⟩) =
      .error "IndexError: no such group" ∧
    get_screen_info false ⟨none, none, none⟩ false none none = .ok zeroInfo ∧
    get_screen_info true ⟨none, none, none⟩ true (some ⟨[1080]⟩) none = .ok zeroInfo := by
  refine ⟨rfl, rfl, rfl, rfl⟩

theorem pyReplaceChar_append (c : Char) (r s t : List Char) :
    pyReplaceChar c r (s ++ t) = pyReplaceChar c r s ++ pyReplaceChar c r t := by
  induction s with
  | nil => rfl
  | cons a s ih => simp [pyReplaceChar, ih]

theorem escapeText_eq_specEscape (text : List Char) : escapeText text = specEscape text := by
  induction text with
  | nil => rfl
  | cons a rest ih =>
    have hstep : escapeText (a :: rest) =
        pyReplaceChar '&' ['\\', '&'] (if a = ' ' then ['%', 's'] else [a]) ++
          escapeText rest := by
      unfold escapeText
      rw [show pyReplaceChar ' ' ['%', 's'] (a :: rest) =
            (if a = ' ' then ['%', 's'] else [a]) ++ pyReplaceChar ' ' ['%', 's'] rest from rfl,
          pyReplaceChar_append]
    rw [hstep, ih]
    show _ = (if a = ' ' then ['%', 's'] else if a = '&' then ['\\', '&'] else [a]) ++
      specEscape rest
    by_cases ha : a = ' '
    · subst ha
      rfl
    · by_cases hb : a = '&'
      · subst hb
        simp [pyReplaceChar]
      · simp [pyReplaceChar, ha, hb]

/-- C8 counterexample: `mirror_text` targets only the slaves — with master
"MASTER" and slave list ["S1"], the issued commands go to ["S1"] and the
master receives nothing, refuting "sends the text to the master device
and to every slave device". -/
theorem C8_master_not_targeted_counterexample :
    (mirrorText ["S1"] ['h', 'i']).map Prod.fst = ["S1"] ∧
    ¬("MASTER" ∈ (mirrorText ["S1"] ['h', 'i']).map Prod.fst) := by
  decide

/-- C8 (amended): text dispatch sends the escaped text to every slave and
only the slaves (the master receives no text), with no coordinate
mapping; the sequential `replace(' ', '%s').replace('&', '\\&')` is
exactly the single-pass escaping of every space to `%s` and every
ampersand to `\&`. -/
theorem C8_text_dispatch (slaves : List String) (text : List Char) :
    (mirrorText slaves text).map Prod.fst = slaves ∧
    (∀ entry, entry ∈ mirrorText slaves text → entry.2 = escapeText text) ∧
    escapeText text = specEscape text := by
  refine ⟨?_, ?_, escapeText_eq_specEscape text⟩
  · unfold mirrorText
    split
    · rename_i h
      simp [h]
    · rw [List.map_map]
      have hid : (Prod.fst ∘ fun sl : String => (sl, escapeText text)) = id := rfl
      rw [hid, List.map_id]
  · intro entry hmem
    unfold mirrorText at hmem
    split at hmem
    · simp at hmem
    · simp at hmem
      obtain ⟨sl, _, rfl⟩ := hmem
      rfl

/-- C8 witness: with one slave and the text "a &", the single issued
command goes to the slave with the payload escaped to "a%s\&". -/
theorem C8_witness :
    (mirrorText ["S1"] ['a', ' ', '&']).map Prod.fst = ["S1"] ∧
    ("S1", escapeText ['a', ' ', '&']) ∈ mirrorText ["S1"] ['a', ' ', '&'] ∧
    ("S1", escapeText ['a', ' ', '&']).2 = escapeText ['a', ' ', '&'] ∧
    escapeText ['a', ' ', '&'] = specEscape ['a', ' ', '&'] ∧
    escapeText ['a', ' ', '&'] = ['a', '%', 's', '\\', '&'] :=
  ⟨(C8_text_dispatch ["S1"] ['a', ' ', '&']).1,
   by decide,
   (C8_text_dispatch ["S1"] ['a', ' ', '&']).2.1 ("S1", escapeText ['a', ' ', '&']) (by decide),
   (C8_text_dispatch ["S1"] ['a', ' ', '&']).2.2,
   by decide⟩

/-- C9: cache discipline — the resolve-on-miss step of `mirror_tap` never
inserts a zero-width geometry and preserves the positive-width cache
invariant; a cache hit leaves the cache untouched and returns the cached
entry unchanged; the constructor fill inserts only positive-width
entries; and a master geometry accepted from the cache (width > 0) is
returned as-is with the cache unchanged (never mutated for the
session). -/
theorem C9_cache_invariants :
    (∀ (cache : String → Option ScreenInfo) resolved sl,
      (∀ d g, cache d = some g → 0 < g.width) →
      ∀ d g, (slaveGeomStep cache resolved sl).1 d = some g → 0 < g.width) ∧
    (∀ (cache : String → Option ScreenInfo) resolved sl g,
      cache sl = some g → slaveGeomStep cache resolved sl = (cache, g)) ∧
    (∀ (cache : String → Option ScreenInfo) resolved sl,
      (∀ d g, cache d = some g → 0 < g.width) →
      ∀ d g, cacheScreenSizesStep cache resolved sl d = some g → 0 < g.width) ∧
    (∀ cached wmOk wm dumpOk dW dH g, cached = some g → 0 < g.width →
      getMasterScreenSize cached wmOk wm dumpOk dW dH = (some g, g)) := by
  refine ⟨?_, ?_, ?_, ?_⟩
  · intro cache resolved sl hinv d g
    unfold slaveGeomStep
    cases hc : cache sl with
    | some g0 => exact fun h => hinv d g h
    | none =>
      dsimp only
      split
      · rename_i hr
        dsimp only
        split
        · intro h
          cases h
          exact hr
        · exact fun h => hinv d g h
      · exact fun h => hinv d g h
  · intro cache resolved sl g h
    unfold slaveGeomStep
    rw [h]
  · intro cache resolved sl hinv d g
    unfold cacheScreenSizesStep
    split
    · rename_i hr
      dsimp only
      split
      · intro h
        cases h
        exact hr
      · exact fun h => hinv d g h
    · exact fun h => hinv d g h
  · intro cached wmOk wm dumpOk dW dH g hc hw
    subst hc
    simp only [getMasterScreenSize]
    rw [if_pos hw]

/-- C9 witness: a concrete cache hit is returned unchanged without
touching the cache, and a cached positive-width master geometry is
accepted as-is. -/
theorem C9_witness :
    slaveGeomStep (fun d => if d = "s" then some ⟨720, 1600, none⟩ else none)
        ⟨0, 0, none⟩ "s" =
      ((fun d => if d = "s" then some ⟨720, 1600, none⟩ else none), ⟨720, 1600, none⟩) ∧
    getMasterScreenSize (some ⟨1080, 2400, none⟩) false ⟨none, none, none⟩ false none none =
      (some ⟨1080, 2400, none⟩, ⟨1080, 2400, none⟩) :=
  ⟨C9_cache_invariants.2.1 (fun d => if d = "s" then some ⟨720, 1600, none⟩ else none)
      ⟨0, 0, none⟩ "s" ⟨720, 1600, none⟩ (by simp),
   C9_cache_invariants.2.2.2 (some ⟨1080, 2400, none⟩) false ⟨none, none, none⟩
      false none none ⟨1080, 2400, none⟩ rfl (by norm_num)⟩

/-- C10: `execute_all` with no scanned devices returns `[]` without
raising and without consulting the executor at all (the result is
oracle-independent); with devices, it returns exactly one result per
device — same length, and the result devices are a permutation of the
device list — in both parallel and sequential modes. -/
theorem C10_execute_all_per_device :
    (∀ cmd parallel exec, execute_all [] cmd parallel exec = []) ∧
    (∀ cmd parallel exec exec',
      execute_all [] cmd parallel exec = execute_all [] cmd parallel exec') ∧
    (∀ devices cmd parallel exec,
      (execute_all devices cmd parallel exec).length = devices.length ∧
      ((execute_all devices cmd parallel exec).map CmdResult.device).Perm devices) := by
  refine ⟨fun cmd parallel exec => rfl, fun _ _ _ _ => rfl,
    fun devices cmd parallel exec => ⟨?_, ?_⟩⟩
  · unfold execute_all
    split
    · rename_i h
      simp [h]
    · split <;> simp
  · unfold execute_all
    split
    · rename_i h
      simp [h]
    · have hdev : ∀ d, (execute_command exec d cmd).device = d := by
        intro d
        unfold execute_command
        split <;> rfl
      have hmap : ((devices.map fun d => execute_command exec d cmd).map
          CmdResult.device).Perm devices := by
        rw [List.map_map]
        have hcomp : (CmdResult.device ∘ fun d => execute_command exec d cmd) = id := by
          funext d
          exact hdev d
        rw [hcomp, List.map_id]
      split <;> exact hmap

end MultiPhone
